import Mathlib

/-!
Verification of the Streamlit LLM demo app (`src/app.py`).

The app is embedded shallowly: the process environment variable
`OPENAI_API_KEY` is an `Option String`, the Streamlit secret store is an
`Except Unit (Option String)` (an exception while reading secrets is
`.error ()`, a successful `st.secrets.get` returning `None` is `.ok none`),
and the remote chat-completion service is an oracle
`LLMCall → Except String String`. Side effects of `ask_llm` are recorded
in an explicit event trace (credential lookups and network calls) so that
claims such as "no network call occurs" become statements about the trace.
-/

namespace StreamlitLLMApp

/-- Python truthiness of an optional string: `None` and `""` are falsy. -/
def truthy : Option String → Bool
  | none => false
  | some s => s != ""

/-- Python `str.strip()` with no arguments: remove leading and trailing
whitespace. -/
def strip (s : String) : String :=
  String.mk
    (((s.toList.dropWhile Char.isWhitespace).reverse.dropWhile
        Char.isWhitespace).reverse)

/-- `EXPERT_SYSTEMS` dict from `app.py`: the role codes "A" and "B" mapped to
their fixed Japanese system-instruction strings. -/
def EXPERT_SYSTEMS : List (String × String) :=
  [("A",
    "あなたは旅行プランニングの専門家です。ユーザーの目的、予算、移動手段、" ++
    "季節や安全面を考慮し、現実的で具体的な旅程案を日本語で提案してください。" ++
    "可能なら日程ごとのアクティビティ、目安費用、予約のコツも含めてください。"),
   ("B",
    "あなたはキャリアコーチの専門家です。ユーザーの目標、経験、スキルギャップを踏まえ、" ++
    "達成可能なアクションプランを日本語で提案してください。" ++
    "短期/中期/長期のステップ、学習リソース、ネットワーキングの方法、想定課題と対策を含めてください。")]

/-- `get_openai_api_key` from `app.py`: read the `OPENAI_API_KEY` environment
variable; if that is falsy (`None` or empty), try `st.secrets.get`, turning
any exception into `None`. -/
def get_openai_api_key (env : Option String)
    (secrets : Except Unit (Option String)) : Option String :=
  if truthy env then env
  else
    match secrets with
    | .ok v => v
    | .error _ => none

/-- A LangChain chat message: `SystemMessage` or `HumanMessage`. -/
inductive Message where
  | system (content : String)
  | human (content : String)
deriving DecidableEq

/-- The configuration of one `ChatOpenAI(...).invoke(messages)` call. -/
structure LLMCall where
  model : String
  temperature : Nat
  api_key : String
  messages : List Message
deriving DecidableEq

/-- The exceptions `ask_llm` can raise or propagate: `ValueError` for a bad
role, `RuntimeError` for a missing credential, and any error raised by the
remote completion call, carried unchanged. -/
inductive AskError where
  | valueError (msg : String)
  | runtimeError (msg : String)
  | remoteError (msg : String)
deriving DecidableEq

/-- The textual representation of an exception (Python `str(e)`). -/
def AskError.message : AskError → String
  | .valueError m => m
  | .runtimeError m => m
  | .remoteError m => m

/-- Observable side effects of a run: a credential-resolver invocation or an
outbound network call. -/
inductive Event where
  | credentialLookup
  | networkCall (call : LLMCall)
deriving DecidableEq

/-- Whether an event is an outbound network call. -/
def Event.isNetworkCall : Event → Bool
  | .networkCall _ => true
  | .credentialLookup => false

/-- The `ValueError` message of `ask_llm` for an unrecognized role. -/
def valueErrorMsg : String :=
  "expert_choice は \x27A\x27 または \x27B\x27 を指定してください"

/-- The `RuntimeError` message of `ask_llm` for a missing API key. -/
def runtimeErrorMsg : String :=
  "OpenAI API キーが見つかりません。環境変数 OPENAI_API_KEY または st.secrets に設定してください。"

/-- `ask_llm` from `app.py`: validate the role against `EXPERT_SYSTEMS`,
resolve the credential, build the two-message conversation, invoke the
remote service, and return the trimmed response content. The second
component is the trace of side effects in order. -/
def ask_llm (input_text expert_choice : String) (env : Option String)
    (secrets : Except Unit (Option String))
    (remote : LLMCall → Except String String) :
    Except AskError String × List Event :=
  if (EXPERT_SYSTEMS.lookup expert_choice).isNone then
    (.error (.valueError valueErrorMsg), [])
  else
    let api_key := get_openai_api_key env secrets
    if !(truthy api_key) then
      (.error (.runtimeError runtimeErrorMsg), [.credentialLookup])
    else
      let system_msg := (EXPERT_SYSTEMS.lookup expert_choice).getD ""
      let messages := [Message.system system_msg, Message.human input_text]
      let call : LLMCall := ⟨"gpt-4o-mini", 0, api_key.getD "", messages⟩
      match remote call with
      | .ok content => (.ok (strip content), [.credentialLookup, .networkCall call])
      | .error e =>
          (.error (.remoteError e), [.credentialLookup, .networkCall call])

/-- What the presentation layer shows after a form submission. -/
inductive UIOutcome where
  | warning (msg : String)
  | success (response : String)
  | errorShown (msg : String)
deriving DecidableEq

/-- The `if submitted:` branch of `main` from `app.py`: reject blank input
with a warning, otherwise call `ask_llm` on the stripped text and render
either the response or the caught exception's text. -/
def main_submit (input_text expert_choice : String) (env : Option String)
    (secrets : Except Unit (Option String))
    (remote : LLMCall → Except String String) :
    UIOutcome × List Event :=
  if strip input_text = "" then
    (.warning "入力テキストを入力してください。", [])
  else
    match ask_llm (strip input_text) expert_choice env secrets remote with
    | (.ok response, events) => (.success response, events)
    | (.error e, events) =>
        (.errorShown ("エラーが発生しました: " ++ e.message), events)

/-- The `LLMCall` issued by `ask_llm` for a given role instruction, user text
and key. -/
def mkCall (system_msg input_text api_key : String) : LLMCall :=
  ⟨"gpt-4o-mini", 0, api_key, [Message.system system_msg, Message.human input_text]⟩

/-- A stubbed remote service answering every call with the spec scenario's
response, which carries a leading space. -/
def stubRemote : LLMCall → Except String String := fun _ => .ok " 案: ..."

/-- A stubbed remote service answering every call with "ok". -/
def stubRemoteOk : LLMCall → Except String String := fun _ => .ok "ok"

/-- Role "A" is present in the instruction dict. -/
theorem lookup_A_isNone : (EXPERT_SYSTEMS.lookup "A").isNone = false := rfl

/-- Role "B" is present in the instruction dict. -/
theorem lookup_B_isNone : (EXPERT_SYSTEMS.lookup "B").isNone = false := rfl

/-- Shared shape lemma: with a valid role and a truthy resolved key,
`ask_llm` issues exactly the two-message call and maps the remote outcome. -/
theorem ask_llm_valid_shape (input_text role : String) (env : Option String)
    (secrets : Except Unit (Option String))
    (remote : LLMCall → Except String String)
    (hrole : role = "A" ∨ role = "B")
    (hkey : truthy (get_openai_api_key env secrets) = true) :
    ask_llm input_text role env secrets remote =
      (match remote (mkCall ((EXPERT_SYSTEMS.lookup role).getD "") input_text
          ((get_openai_api_key env secrets).getD "")) with
       | .ok content =>
           (.ok (strip content),
            [.credentialLookup,
             .networkCall (mkCall ((EXPERT_SYSTEMS.lookup role).getD "") input_text
               ((get_openai_api_key env secrets).getD ""))])
       | .error e =>
           (.error (.remoteError e),
            [.credentialLookup,
             .networkCall (mkCall ((EXPERT_SYSTEMS.lookup role).getD "") input_text
               ((get_openai_api_key env secrets).getD ""))])) := by
  rcases hrole with rfl | rfl <;>
    simp [ask_llm, mkCall, hkey, lookup_A_isNone, lookup_B_isNone]

/-- A role outside the dict has no instruction entry. -/
theorem lookup_none_of_ne (role : String) (hA : role ≠ "A") (hB : role ≠ "B") :
    EXPERT_SYSTEMS.lookup role = none := by
  have hA' : (role == "A") = false := beq_eq_false_iff_ne.mpr hA
  have hB' : (role == "B") = false := beq_eq_false_iff_ne.mpr hB
  simp [EXPERT_SYSTEMS, List.lookup, hA', hB']

/-- C1: for every role in {"A", "B"} and every user text, with a resolved
credential, `ask_llm` issues a conversation of exactly two messages in order —
the `SystemMessage` carrying the instruction the dict maps the role to, then
the `HumanMessage` carrying exactly the user text — and when the remote call
succeeds it returns the response content with surrounding whitespace
removed. -/
theorem ask_llm_builds_two_message_conversation_and_trims
    (role text : String) (env : Option String)
    (secrets : Except Unit (Option String))
    (remote : LLMCall → Except String String)
    (hrole : role = "A" ∨ role = "B")
    (hkey : truthy (get_openai_api_key env secrets) = true) :
    ∃ call : LLMCall,
      (ask_llm text role env secrets remote).2 =
        [.credentialLookup, .networkCall call] ∧
      call.messages = [Message.system ((EXPERT_SYSTEMS.lookup role).getD ""),
                       Message.human text] ∧
      ∀ resp, remote call = .ok resp →
        (ask_llm text role env secrets remote).1 = .ok (strip resp) := by
  refine ⟨mkCall ((EXPERT_SYSTEMS.lookup role).getD "") text
      ((get_openai_api_key env secrets).getD ""), ?_, rfl, ?_⟩
  · rw [ask_llm_valid_shape text role env secrets remote hrole hkey]
    cases remote (mkCall ((EXPERT_SYSTEMS.lookup role).getD "") text
      ((get_openai_api_key env secrets).getD "")) <;> rfl
  · intro resp h
    rw [ask_llm_valid_shape text role env secrets remote hrole hkey, h]

/-- Witness for C1: the spec scenario — role "A", a Japanese travel request,
a stubbed remote response with a leading space — returns the trimmed text. -/
theorem ask_llm_builds_two_message_conversation_and_trims_witness :
    (∃ call : LLMCall,
      (ask_llm "京都に2泊3日で行きたい" "A" (some "sk-test") (.ok none)
          stubRemote).2 =
        [.credentialLookup, .networkCall call] ∧
      call.messages = [Message.system ((EXPERT_SYSTEMS.lookup "A").getD ""),
                       Message.human "京都に2泊3日で行きたい"] ∧
      ∀ resp, stubRemote call = Except.ok resp →
        (ask_llm "京都に2泊3日で行きたい" "A" (some "sk-test") (.ok none)
            stubRemote).1 = .ok (strip resp)) ∧
    (ask_llm "京都に2泊3日で行きたい" "A" (some "sk-test") (.ok none)
        stubRemote).1 = .ok "案: ..." :=
  ⟨ask_llm_builds_two_message_conversation_and_trims "A" "京都に2泊3日で行きたい"
      (some "sk-test") (.ok none) stubRemote (Or.inl rfl) rfl,
   rfl⟩

/-- C2: for every role outside {"A", "B"} and every user text, `ask_llm`
raises the `ValueError` immediately with an empty side-effect trace: the
credential resolver is never invoked and no network access happens. -/
theorem ask_llm_invalid_role_immediate_value_error
    (role text : String) (env : Option String)
    (secrets : Except Unit (Option String))
    (remote : LLMCall → Except String String)
    (hA : role ≠ "A") (hB : role ≠ "B") :
    ask_llm text role env secrets remote =
      (.error (.valueError valueErrorMsg), []) := by
  simp [ask_llm, lookup_none_of_ne role hA hB]

/-- Witness for C2: the spec scenario role "C" — `ValueError`, and the trace
is empty, so zero credential lookups and zero network calls. -/
theorem ask_llm_invalid_role_immediate_value_error_witness :
    ask_llm "hello" "C" (some "sk-test") (.ok none) (fun _ => .ok "r") =
      (.error (.valueError valueErrorMsg), []) :=
  ask_llm_invalid_role_immediate_value_error "C" "hello" (some "sk-test")
    (.ok none) (fun _ => .ok "r") (by decide) (by decide)

/-- C3: `get_openai_api_key` is total (it never raises). A truthy environment
variable is returned as-is; otherwise the secret store is consulted, a
successful lookup's value (present or absent) is returned, and a raising
lookup yields `none` instead of propagating the error. -/
theorem get_openai_api_key_never_raises_fallback
    (env : Option String) (secrets : Except Unit (Option String)) :
    (truthy env = true → get_openai_api_key env secrets = env) ∧
    (truthy env = false →
      ∀ v, secrets = .ok v → get_openai_api_key env secrets = v) ∧
    (truthy env = false →
      ∀ u, secrets = .error u → get_openai_api_key env secrets = none) := by
  refine ⟨fun h => ?_, fun h v hv => ?_, fun h u hu => ?_⟩
  · simp [get_openai_api_key, h]
  · subst hv; simp [get_openai_api_key, h]
  · subst hu; simp [get_openai_api_key, h]

/-- Witness for C3: all three branches at concrete stores — env set, env
unset with a secret present, env unset with a raising store. -/
theorem get_openai_api_key_never_raises_fallback_witness :
    get_openai_api_key (some "sk-env") (.error ()) = some "sk-env" ∧
    get_openai_api_key none (.ok (some "sk-secret")) = some "sk-secret" ∧
    get_openai_api_key none (.error ()) = none :=
  ⟨(get_openai_api_key_never_raises_fallback (some "sk-env") (.error ())).1 rfl,
   (get_openai_api_key_never_raises_fallback none (.ok (some "sk-secret"))).2.1
     rfl (some "sk-secret") rfl,
   (get_openai_api_key_never_raises_fallback none (.error ())).2.2 rfl () rfl⟩

/-- Shared lemma: a valid role with a falsy resolved key yields the
`RuntimeError` after the credential lookup and nothing else. -/
theorem ask_llm_falsy_key (role text : String) (env : Option String)
    (secrets : Except Unit (Option String))
    (remote : LLMCall → Except String String)
    (hrole : role = "A" ∨ role = "B")
    (hkey : truthy (get_openai_api_key env secrets) = false) :
    ask_llm text role env secrets remote =
      (.error (.runtimeError runtimeErrorMsg), [.credentialLookup]) := by
  rcases hrole with rfl | rfl <;>
    simp [ask_llm, hkey, lookup_A_isNone, lookup_B_isNone]

/-- C4: for a valid role, when the credential resolver yields no truthy key,
`ask_llm` raises the `RuntimeError` and the trace holds the credential lookup
only — no network call. -/
theorem ask_llm_missing_key_runtime_error_no_network
    (role text : String) (env : Option String)
    (secrets : Except Unit (Option String))
    (remote : LLMCall → Except String String)
    (hrole : role = "A" ∨ role = "B")
    (hkey : truthy (get_openai_api_key env secrets) = false) :
    ask_llm text role env secrets remote =
      (.error (.runtimeError runtimeErrorMsg), [.credentialLookup]) :=
  ask_llm_falsy_key role text env secrets remote hrole hkey

/-- Witness for C4: environment variable unset and no matching secret-store
entry, role "A". -/
theorem ask_llm_missing_key_runtime_error_no_network_witness :
    ask_llm "t" "A" none (.ok none) (fun _ => .ok "r") =
      (.error (.runtimeError runtimeErrorMsg), [.credentialLookup]) :=
  ask_llm_missing_key_runtime_error_no_network "A" "t" none (.ok none)
    (fun _ => .ok "r") (Or.inl rfl) rfl

/-- C5: a submission whose text is empty or whitespace-only is rejected by
the presentation layer with the warning, with an empty trace: `ask_llm` is
never reached, so no credential resolution and no network call occurs. -/
theorem main_submit_rejects_blank_input
    (text role : String) (env : Option String)
    (secrets : Except Unit (Option String))
    (remote : LLMCall → Except String String)
    (h : strip text = "") :
    main_submit text role env secrets remote =
      (.warning "入力テキストを入力してください。", []) := by
  simp [main_submit, h]

/-- Witness for C5: a whitespace-only submission with a key available. -/
theorem main_submit_rejects_blank_input_witness :
    main_submit "  \t\n " "A" (some "sk-test") (.ok none) (fun _ => .ok "r") =
      (.warning "入力テキストを入力してください。", []) :=
  main_submit_rejects_blank_input "  \t\n " "A" (some "sk-test") (.ok none)
    (fun _ => .ok "r") rfl

/-- C6: every run with a valid role and a resolved key performs exactly one
network call, and that call is configured with model "gpt-4o-mini" and
temperature 0. -/
theorem ask_llm_one_call_fixed_model_zero_temperature
    (role text : String) (env : Option String)
    (secrets : Except Unit (Option String))
    (remote : LLMCall → Except String String)
    (hrole : role = "A" ∨ role = "B")
    (hkey : truthy (get_openai_api_key env secrets) = true) :
    ∃ call : LLMCall,
      (ask_llm text role env secrets remote).2 =
        [.credentialLookup, .networkCall call] ∧
      call.model = "gpt-4o-mini" ∧
      call.temperature = 0 ∧
      ((ask_llm text role env secrets remote).2.filter
          Event.isNetworkCall).length = 1 := by
  refine ⟨mkCall ((EXPERT_SYSTEMS.lookup role).getD "") text
      ((get_openai_api_key env secrets).getD ""), ?_, rfl, rfl, ?_⟩ <;>
    · rw [ask_llm_valid_shape text role env secrets remote hrole hkey]
      cases remote (mkCall ((EXPERT_SYSTEMS.lookup role).getD "") text
        ((get_openai_api_key env secrets).getD "")) <;> rfl

/-- Witness for C6: role "B" with the key resolved from the secret store. -/
theorem ask_llm_one_call_fixed_model_zero_temperature_witness :
    ∃ call : LLMCall,
      (ask_llm "転職したい" "B" none (.ok (some "sk-b"))
          (fun _ => .ok "応答")).2 =
        [.credentialLookup, .networkCall call] ∧
      call.model = "gpt-4o-mini" ∧
      call.temperature = 0 ∧
      ((ask_llm "転職したい" "B" none (.ok (some "sk-b"))
          (fun _ => .ok "応答")).2.filter Event.isNetworkCall).length = 1 :=
  ask_llm_one_call_fixed_model_zero_temperature "B" "転職したい" none
    (.ok (some "sk-b")) (fun _ => .ok "応答") (Or.inr rfl) rfl

/-- C7: a failure raised by the remote completion call is propagated by
`ask_llm` with its text unchanged, and on any error from `ask_llm` the
presentation layer renders the error's textual representation prefixed by
the generic message and does nothing further. -/
theorem remote_failure_propagated_and_rendered
    (text role : String) (env : Option String)
    (secrets : Except Unit (Option String))
    (remote : LLMCall → Except String String) :
    (∀ e, (role = "A" ∨ role = "B") →
      truthy (get_openai_api_key env secrets) = true →
      remote (mkCall ((EXPERT_SYSTEMS.lookup role).getD "") text
        ((get_openai_api_key env secrets).getD "")) = .error e →
      (ask_llm text role env secrets remote).1 = .error (.remoteError e) ∧
      (AskError.remoteError e).message = e) ∧
    (∀ err events, strip text ≠ "" →
      ask_llm (strip text) role env secrets remote = (.error err, events) →
      main_submit text role env secrets remote =
        (.errorShown ("エラーが発生しました: " ++ err.message), events)) := by
  constructor
  · intro e hrole hkey hrem
    refine ⟨?_, rfl⟩
    rw [ask_llm_valid_shape text role env secrets remote hrole hkey, hrem]
  · intro err events hne hask
    unfold main_submit
    rw [if_neg hne, hask]

/-- Witness for C7: a remote failure "boom" surfaces unchanged from `ask_llm`
and is rendered by the presentation layer with the generic prefix. -/
theorem remote_failure_propagated_and_rendered_witness :
    ((ask_llm "旅行したい" "A" (some "sk-w") (.ok none)
        (fun _ => .error "boom")).1 = .error (.remoteError "boom") ∧
      (AskError.remoteError "boom").message = "boom") ∧
    main_submit " 旅行したい " "A" (some "sk-w") (.ok none)
        (fun _ => .error "boom") =
      (.errorShown ("エラーが発生しました: " ++
          (AskError.remoteError "boom").message),
       [.credentialLookup,
        .networkCall (mkCall ((EXPERT_SYSTEMS.lookup "A").getD "")
          "旅行したい" "sk-w")]) :=
  ⟨(remote_failure_propagated_and_rendered "旅行したい" "A" (some "sk-w")
      (.ok none) (fun _ => .error "boom")).1 "boom" (Or.inl rfl) rfl rfl,
   (remote_failure_propagated_and_rendered " 旅行したい " "A" (some "sk-w")
      (.ok none) (fun _ => .error "boom")).2 (.remoteError "boom")
     [.credentialLookup,
      .networkCall (mkCall ((EXPERT_SYSTEMS.lookup "A").getD "")
        "旅行したい" "sk-w")] (by decide) rfl⟩

/-- C8: an empty-string credential behaves like an absent one — an empty
`OPENAI_API_KEY` environment variable falls through to the secret store, and
a resolved empty key makes `ask_llm` raise the same `RuntimeError` as a
missing key, with no network call. -/
theorem empty_string_credential_treated_as_absent :
    (∀ secrets : Except Unit (Option String),
      get_openai_api_key (some "") secrets = get_openai_api_key none secrets) ∧
    (∀ (text role : String) (env : Option String)
        (secrets : Except Unit (Option String))
        (remote : LLMCall → Except String String),
      (role = "A" ∨ role = "B") →
      get_openai_api_key env secrets = some "" →
      ask_llm text role env secrets remote =
        (.error (.runtimeError runtimeErrorMsg), [.credentialLookup])) := by
  constructor
  · intro secrets
    rfl
  · intro text role env secrets remote hrole hkey
    have h : truthy (get_openai_api_key env secrets) = false := by
      rw [hkey]; rfl
    exact ask_llm_falsy_key role text env secrets remote hrole h

/-- Witness for C8: an empty env key falls through to the store, and an
empty key resolved from the store triggers the `RuntimeError`. -/
theorem empty_string_credential_treated_as_absent_witness :
    get_openai_api_key (some "") (.ok (some "sk-s")) =
      get_openai_api_key none (.ok (some "sk-s")) ∧
    ask_llm "t2" "B" (some "") (.ok (some "")) (fun _ => .ok "r") =
      (.error (.runtimeError runtimeErrorMsg), [.credentialLookup]) :=
  ⟨empty_string_credential_treated_as_absent.1 (.ok (some "sk-s")),
   empty_string_credential_treated_as_absent.2 "t2" "B" (some "")
     (.ok (some "")) (fun _ => .ok "r") (Or.inr rfl) rfl⟩

/-- C9: `ask_llm` validates nothing about the user text: for any text,
including the empty string, with a valid role and resolved key it never
raises the `ValueError` and issues the network call carrying exactly that
text; its outcome is determined by the remote response alone. -/
theorem ask_llm_no_input_validation
    (text role : String) (env : Option String)
    (secrets : Except Unit (Option String))
    (remote : LLMCall → Except String String)
    (hrole : role = "A" ∨ role = "B")
    (hkey : truthy (get_openai_api_key env secrets) = true) :
    ∃ call : LLMCall,
      (ask_llm text role env secrets remote).2 =
        [.credentialLookup, .networkCall call] ∧
      call.messages = [Message.system ((EXPERT_SYSTEMS.lookup role).getD ""),
                       Message.human text] ∧
      (∀ m, (ask_llm text role env secrets remote).1 ≠
        .error (.valueError m)) ∧
      (ask_llm text role env secrets remote).1 =
        (match remote call with
         | .ok content => .ok (strip content)
         | .error e => .error (.remoteError e)) := by
  refine ⟨mkCall ((EXPERT_SYSTEMS.lookup role).getD "") text
      ((get_openai_api_key env secrets).getD ""), ?_, rfl, ?_, ?_⟩
  · rw [ask_llm_valid_shape text role env secrets remote hrole hkey]
    cases remote (mkCall ((EXPERT_SYSTEMS.lookup role).getD "") text
      ((get_openai_api_key env secrets).getD "")) <;> rfl
  · intro m
    rw [ask_llm_valid_shape text role env secrets remote hrole hkey]
    cases remote (mkCall ((EXPERT_SYSTEMS.lookup role).getD "") text
      ((get_openai_api_key env secrets).getD "")) <;> simp
  · rw [ask_llm_valid_shape text role env secrets remote hrole hkey]
    cases remote (mkCall ((EXPERT_SYSTEMS.lookup role).getD "") text
      ((get_openai_api_key env secrets).getD "")) <;> rfl

/-- Witness for C9: the empty user text is accepted by `ask_llm` and sent as
the human message. -/
theorem ask_llm_no_input_validation_witness :
    ∃ call : LLMCall,
      (ask_llm "" "A" (some "sk-e") (.error ()) stubRemoteOk).2 =
        [.credentialLookup, .networkCall call] ∧
      call.messages = [Message.system ((EXPERT_SYSTEMS.lookup "A").getD ""),
                       Message.human ""] ∧
      (∀ m, (ask_llm "" "A" (some "sk-e") (.error ()) stubRemoteOk).1 ≠
        .error (.valueError m)) ∧
      (ask_llm "" "A" (some "sk-e") (.error ()) stubRemoteOk).1 =
        (match stubRemoteOk call with
         | .ok content => .ok (strip content)
         | .error e => .error (.remoteError e)) :=
  ask_llm_no_input_validation "" "A" (some "sk-e") (.error ()) stubRemoteOk
    (Or.inl rfl) rfl

/-- C10: the presentation layer strips the submitted text before invoking:
for every accepted submission, the human message inside the issued network
call is exactly `strip input_text`. -/
theorem main_submit_strips_input_before_invoking
    (text role : String) (env : Option String)
    (secrets : Except Unit (Option String))
    (remote : LLMCall → Except String String)
    (hrole : role = "A" ∨ role = "B")
    (hkey : truthy (get_openai_api_key env secrets) = true)
    (hne : strip text ≠ "") :
    ∃ call : LLMCall,
      (main_submit text role env secrets remote).2 =
        [.credentialLookup, .networkCall call] ∧
      call.messages = [Message.system ((EXPERT_SYSTEMS.lookup role).getD ""),
                       Message.human (strip text)] := by
  refine ⟨mkCall ((EXPERT_SYSTEMS.lookup role).getD "") (strip text)
      ((get_openai_api_key env secrets).getD ""), ?_, rfl⟩
  unfold main_submit
  rw [if_neg hne,
    ask_llm_valid_shape (strip text) role env secrets remote hrole hkey]
  cases remote (mkCall ((EXPERT_SYSTEMS.lookup role).getD "") (strip text)
    ((get_openai_api_key env secrets).getD "")) <;> rfl

/-- Witness for C10: a submission with surrounding whitespace reaches the
network call with the stripped text as the human message. -/
theorem main_submit_strips_input_before_invoking_witness :
    ∃ call : LLMCall,
      (main_submit "  京都  " "A" (some "sk-main") (.ok none)
          (fun _ => .ok "r")).2 =
        [.credentialLookup, .networkCall call] ∧
      call.messages = [Message.system ((EXPERT_SYSTEMS.lookup "A").getD ""),
                       Message.human (strip "  京都  ")] :=
  main_submit_strips_input_before_invoking "  京都  " "A" (some "sk-main")
    (.ok none) (fun _ => .ok "r") (Or.inl rfl) rfl (by decide)

end StreamlitLLMApp
